import Mathlib

/-!
Verification of the DeepLX CLI client (`main.go` of deeplx-cli).

The client is shallowly embedded: network and filesystem effects are
explicit parameters, and the HTTP calls a run performs are recorded as an
event list.  JSON (de)serialization of the fixed response schema is
modelled structurally: a received body either parses to a
`TranslationResponse` or is malformed; this mirrors `json.Unmarshal`
without re-implementing a JSON parser.  The `timeout` and `debug`
parameters are carried for fidelity to the Go signatures; they only bound
the transport and gate debug traces on stderr, which are outside the model.
-/

namespace DeeplxCLI

/-- Application name constant `AppName` from main.go. -/
def AppName : String := "translate"

/-- Application version constant `AppVersion` from main.go. -/
def AppVersion : String := "0.1.0"

/-- Go `strings.Contains s pat`: substring test on the character lists. -/
def strContains (s pat : String) : Bool := decide (pat.data <:+: s.data)

/-- Go `strings.ToUpper`, defined over the character list (the CLI only
upper-cases ASCII language codes, where Go and `Char.toUpper` agree). -/
def strToUpper (s : String) : String := ⟨s.data.map Char.toUpper⟩

/-- The `Config` struct persisted at the user config path (main.go 24-27).
Go zero values are empty strings. -/
structure Config where
  DefaultURL : String := ""
  DefaultToken : String := ""
deriving Repr, DecidableEq

/-- The `TranslationRequest` struct (main.go 41-45); its JSON keys are
`text`, `source_lang`, `target_lang`. -/
structure TranslationRequest where
  Text : String
  SourceLang : String
  TargetLang : String
deriving Repr, DecidableEq

/-- The `TranslationResponse` struct (main.go 30-38). -/
structure TranslationResponse where
  Code : Int
  ID : Int
  Data : String
  Alternatives : List String
  SourceLang : String
  TargetLang : String
  Method : String
deriving Repr, DecidableEq

/-- Outcome of the plain GET probe issued by `checkServerConnection`:
either some HTTP response came back (its status and body are ignored by
the code), or the transport failed with a Go error message. -/
inductive GetResult where
  | success
  | failure (errMsg : String)
deriving Repr, DecidableEq

/-- A response body as handed to `json.Unmarshal`: `wellFormed r raw`
parses to `r` (raw text `raw`); `malformed raw errMsg` fails to parse and
`json.Unmarshal` reports `errMsg`. -/
inductive RespBody where
  | wellFormed (r : TranslationResponse) (raw : String)
  | malformed (raw : String) (errMsg : String)
deriving Repr, DecidableEq

/-- Raw text of a response body, as read by `io.ReadAll`. -/
def RespBody.raw : RespBody → String
  | .wellFormed _ raw => raw
  | .malformed raw _ => raw

/-- A POST request as built by `translate`: target URL, headers, and the
structured payload that `json.Marshal` serializes (marshalling a struct of
three strings never fails, so that error branch is unreachable). -/
structure HTTPRequest where
  url : String
  headers : List (String × String)
  body : TranslationRequest
deriving Repr, DecidableEq

/-- Outcome of `client.Do` on the POST: an HTTP response (status and
body), or a transport failure with a Go error message. -/
inductive PostResult where
  | resp (status : Nat) (body : RespBody)
  | failure (errMsg : String)
deriving Repr, DecidableEq

/-- The network environment a run executes against. -/
structure Network where
  get : String → GetResult
  post : HTTPRequest → PostResult

/-- One HTTP call performed by the client, in order of occurrence. -/
inductive NetEvent where
  | getEv (url : String)
  | postEv (req : HTTPRequest)
deriving Repr, DecidableEq

/-- Guidance error built by `checkServerConnection` (main.go 553-561) when
the GET probe fails with connection refused / dial failure. -/
def noServerGuidance (serverURL : String) : String :=
  "cannot connect to DeepLX server at " ++ serverURL ++
  "\n\nNo DeepLX server found. To start one:\n\n  docker run -d -p 1188:1188 ghcr.io/owo-network/deeplx:latest\n\nOr specify a different server:\n\n  translate --url https://your-server.com \"Hello world\""

/-- Guidance error built by `translate` (main.go 485-498) when the POST
itself fails with connection refused / dial failure. -/
def notRunningGuidance (serverURL : String) : String :=
  "cannot connect to DeepLX server at " ++ serverURL ++
  "\n\nIt looks like DeepLX is not running. To fix this:\n\n1. Start DeepLX with Docker:\n   docker run -d -p 1188:1188 ghcr.io/owo-network/deeplx:latest\n\n2. Or use a different server:\n   translate --url https://your-server.com \"Hello world\"\n\n3. Or configure a default server:\n   translate config set --url https://your-server.com\n\nFor more info: https://github.com/OwO-Network/DeepLX"

/-- Embedding of `checkServerConnection` (main.go 544-568): issue a plain
GET to the base URL; any HTTP response counts as reachable, a transport
error is mapped to guidance (connection refused / dial tcp) or to a
generic unreachable message. -/
def checkServerConnection (serverURL : String) (timeout : Nat) (net : Network) :
    Except String Unit :=
  match net.get serverURL with
  | .success => .ok ()
  | .failure errMsg =>
    if strContains errMsg "connection refused" || strContains errMsg "dial tcp" then
      .error (noServerGuidance serverURL)
    else
      .error ("server not reachable at " ++ serverURL ++ ": " ++ errMsg)

/-- The POST request `translate` builds (main.go 438-473): body fields
from its arguments, URL `serverURL ++ "/translate"`, Content-Type and
User-Agent headers, and a Bearer Authorization header exactly when the
token is non-empty. -/
def postRequest (serverURL text sourceLang targetLang token : String) : HTTPRequest :=
  { url := serverURL ++ "/translate"
    headers :=
      [("Content-Type", "application/json"),
       ("User-Agent", AppName ++ "/" ++ AppVersion)] ++
      (if token ≠ "" then [("Authorization", "Bearer " ++ token)] else [])
    body := { Text := text, SourceLang := sourceLang, TargetLang := targetLang } }

/-- Embedding of `translate` (main.go 432-541).  Returns the Go result
(`*TranslationResponse, error` as `Except`) together with the list of HTTP
calls performed. -/
def translate (serverURL text sourceLang targetLang token : String)
    (timeout : Nat) (debug : Bool) (net : Network) :
    Except String TranslationResponse × List NetEvent :=
  match checkServerConnection serverURL timeout net with
  | .error e => (.error e, [.getEv serverURL])
  | .ok _ =>
    let req := postRequest serverURL text sourceLang targetLang token
    let events := [NetEvent.getEv serverURL, NetEvent.postEv req]
    match net.post req with
    | .failure errMsg =>
      if strContains errMsg "connection refused" || strContains errMsg "dial tcp" then
        (.error (notRunningGuidance serverURL), events)
      else
        (.error ("failed to send request: " ++ errMsg), events)
    | .resp status body =>
      if status ≠ 200 then
        if status = 401 then
          (.error "authentication failed - check your token", events)
        else if status = 429 then
          (.error "rate limit exceeded - please wait and try again", events)
        else if status = 404 then
          (.error ("server endpoint not found - check your URL: " ++ serverURL), events)
        else
          (.error ("server returned status " ++ toString status ++ ": " ++ body.raw), events)
      else
        match body with
        | .malformed _ errMsg =>
          (.error ("failed to parse response: " ++ errMsg), events)
        | .wellFormed r _ =>
          if r.Code ≠ 200 then
            (.error ("translation failed with code " ++ toString r.Code ++ ": " ++ r.Data), events)
          else
            (.ok r, events)

/-- Resolved flag values of a translation invocation, after the CLI
library has resolved each flag (defaults mirror main.go 66-108). -/
structure ActionInput where
  args : List String
  source : String := "auto"
  target : String := "en"
  url : String
  token : String
  alternatives : Bool := false
  timeout : Nat := 30
  debug : Bool := false

/-- Observable outcome of a run: process exit code and stdout lines
(stderr prints are not modelled). -/
structure ActionOutput where
  exitCode : Nat
  stdout : List String
deriving Repr, DecidableEq

/-- The numbered alternative lines printed by main.go 408-411. -/
def altLines (alts : List String) : List String :=
  "\nAlternatives:" :: alts.enum.map (fun p => toString (p.1 + 1) ++ ". " ++ p.2)

/-- Embedding of the app `Action` for a translation invocation, `NArg > 0`
(main.go 378-421): join the positional arguments, upper-case the language
flags, call `translate`, then print the translation (and alternatives) and
exit 0, or exit 1 via `cli.Exit` on error.  The zero-argument branch only
prints help or a welcome message and is not modelled.  Returns the output
together with the HTTP calls performed. -/
def runAction (inp : ActionInput) (net : Network) : ActionOutput × List NetEvent :=
  let text := String.intercalate " " inp.args
  let sourceLang := strToUpper inp.source
  let targetLang := strToUpper inp.target
  let run := translate inp.url text sourceLang targetLang inp.token inp.timeout inp.debug net
  match run.1 with
  | .error _ =>
    -- both error branches of main.go 393-401 exit 1 via cli.Exit; they
    -- differ only in what is printed on stderr, which is not modelled
    ({ exitCode := 1, stdout := [] }, run.2)
  | .ok r =>
    ({ exitCode := 0
       stdout :=
         r.Data ::
           (if inp.alternatives && decide (0 < r.Alternatives.length) then
             altLines r.Alternatives
           else []) }, run.2)

/-- Content of a file as seen through `json.Unmarshal` into `Config`:
either it parses to a `Config`, or it is malformed (in which case
`loadConfig` ignores the error and keeps the zero value). -/
inductive FileData where
  | wellFormed (c : Config)
  | malformed
deriving Repr, DecidableEq

/-- The filesystem environment: the user config directory (none when
`os.UserConfigDir` fails), whether `MkdirAll` and `WriteFile` succeed, and
the file store. -/
structure FS where
  userConfigDir : Option String
  mkdirOk : Bool
  writeOk : Bool
  files : String → Option FileData

/-- Path of the config file under a config directory
(`filepath.Join(configDir, "translate", "config.json")`). -/
def configPath (dir : String) : String := dir ++ "/translate/config.json"

/-- Embedding of `loadConfig` (main.go 570-587): on any failure (no config
dir, unreadable/missing file, malformed JSON) return the zero-value
`Config`; the `json.Unmarshal` error is discarded. -/
def loadConfig (fs : FS) : Config :=
  match fs.userConfigDir with
  | none => {}
  | some dir =>
    match fs.files (configPath dir) with
    | none => {}
    | some .malformed => {}
    | some (.wellFormed c) => c

/-- Embedding of `saveConfig` (main.go 590-609): fail when the config dir
is unavailable, `MkdirAll` fails, or `WriteFile` fails; otherwise
overwrite the config file (`MarshalIndent` of two strings never fails, and
what is written parses back to the same `Config`). -/
def saveConfig (config : Config) (fs : FS) : Except String FS :=
  match fs.userConfigDir with
  | none => .error "user config dir unavailable"
  | some dir =>
    if !fs.mkdirOk then .error "mkdir failed"
    else if !fs.writeOk then .error "write failed"
    else
      .ok { fs with
            files := fun p =>
              if p = configPath dir then some (.wellFormed config) else fs.files p }

/-- Embedding of `setConfig` (main.go 612-626): load the current config,
overwrite each field only when its flag value is non-empty (an absent flag
reads as ""), and save.  Returns the updated filesystem. -/
def setConfig (urlFlag tokenFlag : String) (fs : FS) : Except String FS :=
  let config := loadConfig fs
  let config1 :=
    if urlFlag ≠ "" then { config with DefaultURL := urlFlag } else config
  let config2 :=
    if tokenFlag ≠ "" then { config1 with DefaultToken := tokenFlag } else config1
  saveConfig config2 fs

/-- Embedding of `showConfig` (main.go 629-641): the stdout lines, with
the token masked as a configured / not-set marker (the not-set line has a
digit zero in "T0ken", as in the source). -/
def showConfig (fs : FS) : List String :=
  let config := loadConfig fs
  ["Current configuration:",
   "  Default URL: " ++ config.DefaultURL,
   if config.DefaultToken ≠ "" then "  Default Token: [configured]"
   else "  Default T0ken: [not set]"]

/-- Default URL computed by `main` from the loaded config (main.go 52-55). -/
def appDefaultURL (config : Config) : String :=
  if config.DefaultURL ≠ "" then config.DefaultURL else "http://localhost:1188"

/-- Default token computed by `main` from the loaded config (main.go 57-60). -/
def appDefaultToken (config : Config) : String :=
  if config.DefaultToken ≠ "" then config.DefaultToken else ""

/-- First environment variable that is set, in declaration order. -/
def firstSetEnv : List (Option String) → Option String
  | [] => none
  | some v :: _ => some v
  | none :: rest => firstSetEnv rest

/-- Modelled from the spec: the flag-value resolution performed by the
urfave/cli library, which is an external dependency not under src/ — an
explicit command-line flag wins, else the first set variable of the flag
EnvVars list, else the flag default Value. -/
def resolveStringFlag (cliArg : Option String) (envs : List (Option String))
    (fallback : String) : String :=
  match cliArg with
  | some v => v
  | none =>
    match firstSetEnv envs with
    | some v => v
    | none => fallback

/-- Effective server URL of an invocation: flag `--url` with EnvVars
`DEEPLX_URL` and default Value `appDefaultURL config` (main.go 79-85). -/
def effectiveURL (cliArg envDEEPLXURL : Option String) (config : Config) : String :=
  resolveStringFlag cliArg [envDEEPLXURL] (appDefaultURL config)

/-- Effective token of an invocation: flag `--token` with EnvVars
`TOKEN`, `DEEPLX_TOKEN` and default Value `appDefaultToken config`
(main.go 86-92). -/
def effectiveToken (cliArg envTOKEN envDEEPLXTOKEN : Option String)
    (config : Config) : String :=
  resolveStringFlag cliArg [envTOKEN, envDEEPLXTOKEN] (appDefaultToken config)

/-! Helper lemmas shared between claims. -/

/-- A substring of `t` is a substring of `s ++ t`. -/
theorem strContains_append_right (s t pat : String) (h : strContains t pat = true) :
    strContains (s ++ t) pat = true := by
  have h1 : pat.data <:+: t.data := of_decide_eq_true h
  have h2 : t.data <:+: (s ++ t).data := by
    rw [String.data_append]
    exact (List.suffix_append s.data t.data).isInfix
  exact decide_eq_true (h1.trans h2)

/-- Loading right after a successful save yields the saved config: the
save overwrote the config file with a well-formed serialization of it. -/
theorem loadConfig_saveConfig (config : Config) (fs fs2 : FS)
    (h : saveConfig config fs = .ok fs2) : loadConfig fs2 = config := by
  unfold saveConfig at h
  cases hd : fs.userConfigDir with
  | none => rw [hd] at h; exact absurd h (by simp)
  | some dir =>
    rw [hd] at h
    cases hmk : fs.mkdirOk <;> rw [hmk] at h
    · simp at h
    · cases hw : fs.writeOk <;> rw [hw] at h
      · simp at h
      · simp only [Bool.not_true, Bool.false_eq_true, if_false, Except.ok.injEq] at h
        subst h
        unfold loadConfig
        simp [hd, configPath]

/-- The HTTP calls of a full run are exactly those of the inner
`translate` call. -/
theorem runAction_snd (inp : ActionInput) (net : Network) :
    (runAction inp net).2 =
      (translate inp.url (String.intercalate " " inp.args) (strToUpper inp.source)
        (strToUpper inp.target) inp.token inp.timeout inp.debug net).2 := by
  unfold runAction
  cases h : (translate inp.url (String.intercalate " " inp.args) (strToUpper inp.source)
      (strToUpper inp.target) inp.token inp.timeout inp.debug net).1 <;> simp [h]

/-- When the inner `translate` call fails, the run exits 1 and prints
nothing on stdout. -/
theorem runAction_translate_error (inp : ActionInput) (net : Network) (e : String)
    (h : (translate inp.url (String.intercalate " " inp.args) (strToUpper inp.source)
        (strToUpper inp.target) inp.token inp.timeout inp.debug net).1 = .error e) :
    (runAction inp net).1 = { exitCode := 1, stdout := [] } := by
  unfold runAction
  simp [h]

/-- When the reachability probe fails, `translate` stops after that single
GET. -/
theorem translate_snd_of_check_error (serverURL text sourceLang targetLang token : String)
    (timeout : Nat) (debug : Bool) (net : Network) (e : String)
    (h : checkServerConnection serverURL timeout net = .error e) :
    (translate serverURL text sourceLang targetLang token timeout debug net).2 =
      [NetEvent.getEv serverURL] := by
  unfold translate
  rw [h]

/-- When the reachability probe succeeds, `translate` performs exactly the
GET probe followed by the POST it builds. -/
theorem translate_snd_of_check_ok (serverURL text sourceLang targetLang token : String)
    (timeout : Nat) (debug : Bool) (net : Network)
    (h : checkServerConnection serverURL timeout net = .ok ()) :
    (translate serverURL text sourceLang targetLang token timeout debug net).2 =
      [NetEvent.getEv serverURL,
       NetEvent.postEv (postRequest serverURL text sourceLang targetLang token)] := by
  unfold translate
  rw [h]
  cases hp : net.post (postRequest serverURL text sourceLang targetLang token) <;>
    dsimp only <;> (repeat' split) <;> rfl

/-! Claim theorems: configuration. -/

/-- C8: loading the configuration never fails fatally: when the config
directory is unavailable, the config file is missing or unreadable, or its
content is malformed JSON, `loadConfig` returns a Config with empty
default URL and empty default token instead of an error. -/
theorem loadConfig_failure_defaults (fs : FS)
    (h : fs.userConfigDir = none ∨
      ∃ dir, fs.userConfigDir = some dir ∧
        (fs.files (configPath dir) = none ∨
         fs.files (configPath dir) = some FileData.malformed)) :
    loadConfig fs = { DefaultURL := "", DefaultToken := "" } := by
  unfold loadConfig
  rcases h with h | ⟨dir, hdir, hf | hf⟩
  · rw [h]
  · simp [hdir, hf]
  · simp [hdir, hf]

/-- Filesystem for the C8 witness: no user config directory available. -/
def c8FS : FS :=
  { userConfigDir := none, mkdirOk := true, writeOk := true,
    files := fun _ => none }

/-- Witness for C8 at a filesystem with no user config directory. -/
theorem loadConfig_failure_defaults_witness :
    c8FS.userConfigDir = none ∧
    loadConfig c8FS = { DefaultURL := "", DefaultToken := "" } :=
  ⟨rfl, loadConfig_failure_defaults _ (Or.inl rfl)⟩

/-- C9: after `config set --url X --token Y` with non-empty X and Y
succeeds, `config show` run against the persisted filesystem state prints
X as the default URL and the masked `[configured]` marker in place of the
literal token value. -/
theorem setConfig_then_showConfig (fs fs2 : FS) (x y : String)
    (hx : x ≠ "") (hy : y ≠ "") (h : setConfig x y fs = .ok fs2) :
    showConfig fs2 =
      ["Current configuration:", "  Default URL: " ++ x,
       "  Default Token: [configured]"] := by
  unfold setConfig at h
  have h2 := loadConfig_saveConfig _ _ _ h
  unfold showConfig
  rw [h2]
  simp [hx, hy]

/-- Filesystem for the C9 witness: a config directory and no config file
yet. -/
def c9FS : FS :=
  { userConfigDir := some "/home/u/.config", mkdirOk := true, writeOk := true,
    files := fun _ => none }

/-- Filesystem state after the C9 `config set` run. -/
def c9FS2 : FS :=
  { userConfigDir := some "/home/u/.config", mkdirOk := true, writeOk := true,
    files := fun p =>
      if p = configPath "/home/u/.config" then
        some (.wellFormed { DefaultURL := "http://x", DefaultToken := "tok" })
      else none }

/-- Witness for C9 at a concrete set/show round trip. -/
theorem setConfig_then_showConfig_witness :
    setConfig "http://x" "tok" c9FS = .ok c9FS2 ∧
    showConfig c9FS2 =
      ["Current configuration:", "  Default URL: http://x",
       "  Default Token: [configured]"] :=
  ⟨rfl, setConfig_then_showConfig c9FS c9FS2 "http://x" "tok"
    (by decide) (by decide) rfl⟩

/-- C10: `config set` updates a field only when its flag value is
non-empty; an absent or empty flag leaves that field as previously loaded,
and the other field is carried into the rewritten file verbatim. -/
theorem setConfig_frame (u t : String) (fs fs2 : FS)
    (h : setConfig u t fs = .ok fs2) :
    loadConfig fs2 =
      { DefaultURL := if u ≠ "" then u else (loadConfig fs).DefaultURL
        DefaultToken := if t ≠ "" then t else (loadConfig fs).DefaultToken } := by
  unfold setConfig at h
  have h2 := loadConfig_saveConfig _ _ _ h
  rw [h2]
  by_cases hu : u = "" <;> by_cases ht : t = "" <;> simp [hu, ht]

/-- Filesystem for the C10 witness: a persisted config already present. -/
def c10FS : FS :=
  { userConfigDir := some "/home/u/.config", mkdirOk := true, writeOk := true,
    files := fun p =>
      if p = configPath "/home/u/.config" then
        some (.wellFormed { DefaultURL := "http://old", DefaultToken := "oldtok" })
      else none }

/-- Filesystem state after the C10 `config set --token newtok` run. -/
def c10FS2 : FS :=
  { userConfigDir := some "/home/u/.config", mkdirOk := true, writeOk := true,
    files := fun p =>
      if p = configPath "/home/u/.config" then
        some (.wellFormed { DefaultURL := "http://old", DefaultToken := "newtok" })
      else
        if p = configPath "/home/u/.config" then
          some (.wellFormed { DefaultURL := "http://old", DefaultToken := "oldtok" })
        else none }

/-- Witness for C10: setting only the token keeps the persisted URL. -/
theorem setConfig_frame_witness :
    setConfig "" "newtok" c10FS = .ok c10FS2 ∧
    loadConfig c10FS2 = { DefaultURL := "http://old", DefaultToken := "newtok" } :=
  ⟨rfl, setConfig_frame "" "newtok" c10FS c10FS2 rfl⟩

/-- C5: the effective server URL and token are resolved with priority
explicit CLI flag over environment variable (DEEPLX_URL for the URL;
TOKEN then DEEPLX_TOKEN for the token), over the persisted config, over
the hard-coded defaults http://localhost:1188 and the empty token. -/
theorem flag_resolution_priority :
    (∀ u env config, effectiveURL (some u) env config = u) ∧
    (∀ e config, effectiveURL none (some e) config = e) ∧
    (∀ config : Config, config.DefaultURL ≠ "" →
      effectiveURL none none config = config.DefaultURL) ∧
    (∀ config : Config, config.DefaultURL = "" →
      effectiveURL none none config = "http://localhost:1188") ∧
    (∀ v e1 e2 config, effectiveToken (some v) e1 e2 config = v) ∧
    (∀ e1 e2 config, effectiveToken none (some e1) e2 config = e1) ∧
    (∀ e2 config, effectiveToken none none (some e2) config = e2) ∧
    (∀ config : Config, config.DefaultToken ≠ "" →
      effectiveToken none none none config = config.DefaultToken) ∧
    (∀ config : Config, config.DefaultToken = "" →
      effectiveToken none none none config = "") := by
  refine ⟨fun u env config => rfl, fun e config => rfl, ?_, ?_,
    fun v e1 e2 config => rfl, fun e1 e2 config => rfl, fun e2 config => rfl,
    ?_, ?_⟩ <;>
  intro config h <;>
  simp [effectiveURL, effectiveToken, resolveStringFlag, firstSetEnv,
    appDefaultURL, appDefaultToken, h]

/-- Witness for C5 at concrete flag, environment and config values. -/
theorem flag_resolution_priority_witness :
    ({ DefaultURL := "http://cfg", DefaultToken := "cfgtok" } : Config).DefaultURL ≠ "" ∧
    effectiveURL none none { DefaultURL := "http://cfg", DefaultToken := "cfgtok" } =
      "http://cfg" ∧
    effectiveURL (some "http://flag") (some "http://env")
      { DefaultURL := "http://cfg", DefaultToken := "cfgtok" } = "http://flag" ∧
    effectiveURL none none { DefaultURL := "", DefaultToken := "" } =
      "http://localhost:1188" ∧
    effectiveToken none (some "envtok") none { DefaultURL := "", DefaultToken := "" } =
      "envtok" ∧
    effectiveToken none none none { DefaultURL := "", DefaultToken := "" } = "" :=
  ⟨by decide,
   flag_resolution_priority.2.2.1 _ (by decide),
   flag_resolution_priority.1 _ _ _,
   flag_resolution_priority.2.2.2.1 _ rfl,
   flag_resolution_priority.2.2.2.2.2.1 _ _ _,
   flag_resolution_priority.2.2.2.2.2.2.2.2 _ rfl⟩

/-! Claim theorems: translation path. -/

/-- A run whose inner `translate` call fails exits 1. -/
theorem runAction_exit_of_error (inp : ActionInput) (net : Network)
    (h : ∃ e, (translate inp.url (String.intercalate " " inp.args) (strToUpper inp.source)
        (strToUpper inp.target) inp.token inp.timeout inp.debug net).1 = .error e) :
    (runAction inp net).1.exitCode = 1 := by
  obtain ⟨e, he⟩ := h
  rw [runAction_translate_error inp net e he]

/-- C1: when the server replies HTTP 200 with a payload whose code field
is 200, `translate` returns the parsed response without error — its Data
field holds the translated text and its Alternatives field the candidate
list — and the client prints the translation on stdout and exits 0. -/
theorem translate_success_prints_and_exits_zero (inp : ActionInput) (net : Network)
    (r : TranslationResponse) (raw : String)
    (hget : net.get inp.url = .success)
    (hpost : net.post (postRequest inp.url (String.intercalate " " inp.args)
        (strToUpper inp.source) (strToUpper inp.target) inp.token) =
      .resp 200 (.wellFormed r raw))
    (hcode : r.Code = 200) :
    (translate inp.url (String.intercalate " " inp.args) (strToUpper inp.source)
        (strToUpper inp.target) inp.token inp.timeout inp.debug net).1 = .ok r ∧
    (runAction inp net).1.exitCode = 0 ∧
    (runAction inp net).1.stdout.head? = some r.Data := by
  have htr : (translate inp.url (String.intercalate " " inp.args) (strToUpper inp.source)
      (strToUpper inp.target) inp.token inp.timeout inp.debug net).1 = .ok r := by
    simp [translate, checkServerConnection, hget, hpost, hcode]
  refine ⟨htr, ?_, ?_⟩ <;> unfold runAction <;> simp [htr]

/-- Response for the C1 witness. -/
def c1Resp : TranslationResponse :=
  { Code := 200, ID := 7, Data := "Hola", Alternatives := ["Buenas"],
    SourceLang := "EN", TargetLang := "ES", Method := "Free" }

/-- Network for the C1 witness: reachable, always replies 200 / code 200. -/
def c1Net : Network :=
  { get := fun _ => .success
    post := fun _ => .resp 200 (.wellFormed c1Resp "resp-json") }

/-- Invocation for the C1 witness. -/
def c1Inp : ActionInput :=
  { args := ["Hello", "world"], source := "en", target := "es",
    url := "http://localhost:1188", token := "", alternatives := false,
    timeout := 30, debug := false }

/-- Witness for C1 at a concrete successful exchange. -/
theorem translate_success_prints_and_exits_zero_witness :
    c1Net.get c1Inp.url = .success ∧ c1Resp.Code = 200 ∧
    (runAction c1Inp c1Net).1.exitCode = 0 ∧
    (runAction c1Inp c1Net).1.stdout.head? = some "Hola" :=
  ⟨rfl, rfl,
   (translate_success_prints_and_exits_zero c1Inp c1Net c1Resp "resp-json"
     rfl rfl rfl).2.1,
   (translate_success_prints_and_exits_zero c1Inp c1Net c1Resp "resp-json"
     rfl rfl rfl).2.2⟩

/-- C2: a non-200 HTTP status makes `translate` fail with an error
determined by the status — 401 authentication failed, 429 rate limit
exceeded, 404 endpoint not found, any other status the raw status code
and response body — and the client exits 1. -/
theorem translate_http_status_errors (inp : ActionInput) (net : Network)
    (s : Nat) (body : RespBody)
    (hget : net.get inp.url = .success)
    (hpost : net.post (postRequest inp.url (String.intercalate " " inp.args)
        (strToUpper inp.source) (strToUpper inp.target) inp.token) = .resp s body)
    (hs : s ≠ 200) :
    (s = 401 → (translate inp.url (String.intercalate " " inp.args) (strToUpper inp.source)
        (strToUpper inp.target) inp.token inp.timeout inp.debug net).1 =
      .error "authentication failed - check your token") ∧
    (s = 429 → (translate inp.url (String.intercalate " " inp.args) (strToUpper inp.source)
        (strToUpper inp.target) inp.token inp.timeout inp.debug net).1 =
      .error "rate limit exceeded - please wait and try again") ∧
    (s = 404 → (translate inp.url (String.intercalate " " inp.args) (strToUpper inp.source)
        (strToUpper inp.target) inp.token inp.timeout inp.debug net).1 =
      .error ("server endpoint not found - check your URL: " ++ inp.url)) ∧
    (s ≠ 401 → s ≠ 429 → s ≠ 404 →
      (translate inp.url (String.intercalate " " inp.args) (strToUpper inp.source)
        (strToUpper inp.target) inp.token inp.timeout inp.debug net).1 =
      .error ("server returned status " ++ toString s ++ ": " ++ body.raw)) ∧
    (runAction inp net).1.exitCode = 1 := by
  have hA : s = 401 → (translate inp.url (String.intercalate " " inp.args) (strToUpper inp.source)
      (strToUpper inp.target) inp.token inp.timeout inp.debug net).1 =
      .error "authentication failed - check your token" := by
    intro h1; subst h1
    simp [translate, checkServerConnection, hget, hpost]
  have hB : s = 429 → (translate inp.url (String.intercalate " " inp.args) (strToUpper inp.source)
      (strToUpper inp.target) inp.token inp.timeout inp.debug net).1 =
      .error "rate limit exceeded - please wait and try again" := by
    intro h1; subst h1
    simp [translate, checkServerConnection, hget, hpost]
  have hC : s = 404 → (translate inp.url (String.intercalate " " inp.args) (strToUpper inp.source)
      (strToUpper inp.target) inp.token inp.timeout inp.debug net).1 =
      .error ("server endpoint not found - check your URL: " ++ inp.url) := by
    intro h1; subst h1
    simp [translate, checkServerConnection, hget, hpost]
  have hD : s ≠ 401 → s ≠ 429 → s ≠ 404 →
      (translate inp.url (String.intercalate " " inp.args) (strToUpper inp.source)
        (strToUpper inp.target) inp.token inp.timeout inp.debug net).1 =
      .error ("server returned status " ++ toString s ++ ": " ++ body.raw) := by
    intro h1 h2 h3
    simp [translate, checkServerConnection, hget, hpost, hs, h1, h2, h3]
  refine ⟨hA, hB, hC, hD, ?_⟩
  by_cases h1 : s = 401
  · exact runAction_exit_of_error inp net ⟨_, hA h1⟩
  by_cases h2 : s = 429
  · exact runAction_exit_of_error inp net ⟨_, hB h2⟩
  by_cases h3 : s = 404
  · exact runAction_exit_of_error inp net ⟨_, hC h3⟩
  exact runAction_exit_of_error inp net ⟨_, hD h1 h2 h3⟩

/-- Network for the C2 witness: reachable, POST rejected with HTTP 401. -/
def c2Net : Network :=
  { get := fun _ => .success
    post := fun _ => .resp 401 (.malformed "Unauthorized" "invalid JSON") }

/-- Invocation for the C2 witness. -/
def c2Inp : ActionInput :=
  { args := ["Hi"], source := "auto", target := "en",
    url := "http://localhost:1188", token := "bad", alternatives := false,
    timeout := 30, debug := false }

/-- Witness for C2 at a concrete 401 reply. -/
theorem translate_http_status_errors_witness :
    (401 : Nat) ≠ 200 ∧
    (translate c2Inp.url (String.intercalate " " c2Inp.args) (strToUpper c2Inp.source)
        (strToUpper c2Inp.target) c2Inp.token c2Inp.timeout c2Inp.debug c2Net).1 =
      .error "authentication failed - check your token" ∧
    (runAction c2Inp c2Net).1.exitCode = 1 :=
  ⟨by decide,
   (translate_http_status_errors c2Inp c2Net 401
     (.malformed "Unauthorized" "invalid JSON") rfl rfl (by decide)).1 rfl,
   (translate_http_status_errors c2Inp c2Net 401
     (.malformed "Unauthorized" "invalid JSON") rfl rfl (by decide)).2.2.2.2⟩

/-- C3: an HTTP 200 reply whose payload code field is not 200 makes
`translate` fail with a translation-failure error that carries the
server's message from the payload Data field, and the client exits 1. -/
theorem translate_payload_code_error (inp : ActionInput) (net : Network)
    (r : TranslationResponse) (raw : String)
    (hget : net.get inp.url = .success)
    (hpost : net.post (postRequest inp.url (String.intercalate " " inp.args)
        (strToUpper inp.source) (strToUpper inp.target) inp.token) =
      .resp 200 (.wellFormed r raw))
    (hcode : r.Code ≠ 200) :
    (translate inp.url (String.intercalate " " inp.args) (strToUpper inp.source)
        (strToUpper inp.target) inp.token inp.timeout inp.debug net).1 =
      .error ("translation failed with code " ++ toString r.Code ++ ": " ++ r.Data) ∧
    strContains ("translation failed with code " ++ toString r.Code ++ ": " ++ r.Data)
      r.Data = true ∧
    (runAction inp net).1.exitCode = 1 := by
  have htr : (translate inp.url (String.intercalate " " inp.args) (strToUpper inp.source)
      (strToUpper inp.target) inp.token inp.timeout inp.debug net).1 =
      .error ("translation failed with code " ++ toString r.Code ++ ": " ++ r.Data) := by
    simp [translate, checkServerConnection, hget, hpost, hcode]
  refine ⟨htr, ?_, runAction_exit_of_error inp net ⟨_, htr⟩⟩
  exact strContains_append_right _ _ _ (decide_eq_true (List.infix_refl _))

/-- Response for the C3 witness: HTTP 200 but payload code 503. -/
def c3Resp : TranslationResponse :=
  { Code := 503, ID := 0, Data := "busy", Alternatives := [],
    SourceLang := "", TargetLang := "", Method := "" }

/-- Network for the C3 witness. -/
def c3Net : Network :=
  { get := fun _ => .success
    post := fun _ => .resp 200 (.wellFormed c3Resp "resp-json") }

/-- Invocation for the C3 witness. -/
def c3Inp : ActionInput :=
  { args := ["Hi"], source := "auto", target := "en",
    url := "http://localhost:1188", token := "", alternatives := false,
    timeout := 30, debug := false }

/-- Witness for C3 at a concrete payload-level failure. -/
theorem translate_payload_code_error_witness :
    c3Resp.Code ≠ 200 ∧
    (translate c3Inp.url (String.intercalate " " c3Inp.args) (strToUpper c3Inp.source)
        (strToUpper c3Inp.target) c3Inp.token c3Inp.timeout c3Inp.debug c3Net).1 =
      .error "translation failed with code 503: busy" ∧
    (runAction c3Inp c3Net).1.exitCode = 1 :=
  ⟨by decide,
   (translate_payload_code_error c3Inp c3Net c3Resp "resp-json"
     rfl rfl (by decide)).1,
   (translate_payload_code_error c3Inp c3Net c3Resp "resp-json"
     rfl rfl (by decide)).2.2⟩

/-- C4: every POST a translation invocation issues carries upper-cased
source and target language fields, whatever the case of the user-supplied
flags, and its text is the joined positional arguments. -/
theorem request_langs_uppercased (inp : ActionInput) (net : Network) (req : HTTPRequest)
    (h : NetEvent.postEv req ∈ (runAction inp net).2) :
    req.body.SourceLang = (strToUpper inp.source) ∧
    req.body.TargetLang = (strToUpper inp.target) ∧
    req.body.Text = String.intercalate " " inp.args := by
  rw [runAction_snd] at h
  cases hc : checkServerConnection inp.url inp.timeout net with
  | error e =>
    rw [translate_snd_of_check_error inp.url (String.intercalate " " inp.args)
      (strToUpper inp.source) (strToUpper inp.target) inp.token inp.timeout inp.debug net e hc] at h
    simp at h
  | ok u =>
    cases u
    rw [translate_snd_of_check_ok inp.url (String.intercalate " " inp.args)
      (strToUpper inp.source) (strToUpper inp.target) inp.token inp.timeout inp.debug net hc] at h
    simp at h
    subst h
    exact ⟨rfl, rfl, rfl⟩

/-- Network for the C4 witness. -/
def c4Net : Network :=
  { get := fun _ => .success
    post := fun _ => .resp 200 (.wellFormed c1Resp "resp-json") }

/-- Invocation for the C4 witness: lower-case language flags. -/
def c4Inp : ActionInput :=
  { args := ["Hello", "world"], source := "en", target := "es",
    url := "http://localhost:1188", token := "", alternatives := false,
    timeout := 30, debug := false }

/-- The POST request the C4 witness run issues. -/
def c4Req : HTTPRequest :=
  postRequest "http://localhost:1188" "Hello world" "EN" "ES" ""

/-- Witness for C4: flags en/es are sent as EN/ES. -/
theorem request_langs_uppercased_witness :
    NetEvent.postEv c4Req ∈ (runAction c4Inp c4Net).2 ∧
    c4Req.body.SourceLang = "EN" ∧ c4Req.body.TargetLang = "ES" :=
  ⟨by decide,
   (request_langs_uppercased c4Inp c4Net c4Req (by decide)).1,
   (request_langs_uppercased c4Inp c4Net c4Req (by decide)).2.1⟩

/-- C6: a `translate` call first issues the plain GET probe to the base
URL; when the probe succeeds it then issues exactly one POST of the
structured body (text, source_lang, target_lang) to serverURL/translate
with the application/json Content-Type header, carrying a Bearer
Authorization header exactly when the token is non-empty. -/
theorem translate_wire_protocol (serverURL text sourceLang targetLang token : String)
    (timeout : Nat) (debug : Bool) (net : Network) :
    (translate serverURL text sourceLang targetLang token timeout debug net).2.head? =
      some (NetEvent.getEv serverURL) ∧
    (net.get serverURL = .success →
      (translate serverURL text sourceLang targetLang token timeout debug net).2 =
        [NetEvent.getEv serverURL,
         NetEvent.postEv (postRequest serverURL text sourceLang targetLang token)]) ∧
    (postRequest serverURL text sourceLang targetLang token).url =
      serverURL ++ "/translate" ∧
    (postRequest serverURL text sourceLang targetLang token).body =
      { Text := text, SourceLang := sourceLang, TargetLang := targetLang } ∧
    ("Content-Type", "application/json") ∈
      (postRequest serverURL text sourceLang targetLang token).headers ∧
    (token ≠ "" → ("Authorization", "Bearer " ++ token) ∈
      (postRequest serverURL text sourceLang targetLang token).headers) ∧
    (token = "" → ∀ v, ("Authorization", v) ∉
      (postRequest serverURL text sourceLang targetLang token).headers) := by
  refine ⟨?_, ?_, rfl, rfl, ?_, ?_, ?_⟩
  · cases hg : net.get serverURL with
    | success =>
      have hc : checkServerConnection serverURL timeout net = .ok () := by
        unfold checkServerConnection; rw [hg]
      rw [translate_snd_of_check_ok serverURL text sourceLang targetLang token
        timeout debug net hc]
      rfl
    | failure m =>
      obtain ⟨e, hc⟩ : ∃ e, checkServerConnection serverURL timeout net = .error e := by
        unfold checkServerConnection
        rw [hg]
        dsimp only
        split
        · exact ⟨_, rfl⟩
        · exact ⟨_, rfl⟩
      rw [translate_snd_of_check_error serverURL text sourceLang targetLang token
        timeout debug net e hc]
      rfl
  · intro hg
    have hc : checkServerConnection serverURL timeout net = .ok () := by
      unfold checkServerConnection; rw [hg]
    exact translate_snd_of_check_ok serverURL text sourceLang targetLang token
      timeout debug net hc
  · simp [postRequest]
  · intro ht
    simp [postRequest, ht]
  · intro ht v
    simp [postRequest, ht]

/-- Network for the C6 witness. -/
def c6Net : Network :=
  { get := fun _ => .success
    post := fun _ => .resp 200 (.wellFormed c1Resp "resp-json") }

/-- Witness for C6 at a concrete reachable server and non-empty token. -/
theorem translate_wire_protocol_witness :
    c6Net.get "http://s" = .success ∧ ("tok" : String) ≠ "" ∧
    (translate "http://s" "hi" "EN" "ES" "tok" 30 false c6Net).2 =
      [NetEvent.getEv "http://s",
       NetEvent.postEv (postRequest "http://s" "hi" "EN" "ES" "tok")] ∧
    (postRequest "http://s" "hi" "EN" "ES" "tok").url = "http://s/translate" ∧
    ("Authorization", "Bearer tok") ∈
      (postRequest "http://s" "hi" "EN" "ES" "tok").headers :=
  ⟨rfl, by decide,
   (translate_wire_protocol "http://s" "hi" "EN" "ES" "tok" 30 false c6Net).2.1 rfl,
   (translate_wire_protocol "http://s" "hi" "EN" "ES" "tok" 30 false c6Net).2.2.1,
   (translate_wire_protocol "http://s" "hi" "EN" "ES" "tok" 30 false c6Net).2.2.2.2.2.1
     (by decide)⟩

/-- C7: against an unreachable server (connection refused or dial failure
on the probe), `translate` fails with the guidance message that suggests
starting a local DeepLX server via a Docker image, the run performs only
that single GET (no POST, no retry), and the client exits 1. -/
theorem translate_unreachable_guidance (inp : ActionInput) (net : Network) (msg : String)
    (hget : net.get inp.url = .failure msg)
    (hrefused : strContains msg "connection refused" = true ∨
      strContains msg "dial tcp" = true) :
    (translate inp.url (String.intercalate " " inp.args) (strToUpper inp.source)
        (strToUpper inp.target) inp.token inp.timeout inp.debug net).1 =
      .error (noServerGuidance inp.url) ∧
    strContains (noServerGuidance inp.url)
      "docker run -d -p 1188:1188 ghcr.io/owo-network/deeplx:latest" = true ∧
    (runAction inp net).2 = [NetEvent.getEv inp.url] ∧
    (runAction inp net).1.exitCode = 1 := by
  have hcond : (strContains msg "connection refused" || strContains msg "dial tcp") = true := by
    rcases hrefused with h | h <;> simp [h]
  have hc : checkServerConnection inp.url inp.timeout net =
      .error (noServerGuidance inp.url) := by
    unfold checkServerConnection
    rw [hget]
    dsimp only
    rw [if_pos hcond]
  have htr : (translate inp.url (String.intercalate " " inp.args) (strToUpper inp.source)
      (strToUpper inp.target) inp.token inp.timeout inp.debug net).1 =
      .error (noServerGuidance inp.url) := by
    unfold translate
    rw [hc]
  refine ⟨htr, ?_, ?_, runAction_exit_of_error inp net ⟨_, htr⟩⟩
  · unfold noServerGuidance
    exact strContains_append_right _ _ _ (by decide)
  · rw [runAction_snd]
    exact translate_snd_of_check_error inp.url (String.intercalate " " inp.args)
      (strToUpper inp.source) (strToUpper inp.target) inp.token inp.timeout inp.debug net _ hc

/-- Network for the C7 witness: connection refused on the probe. -/
def c7Net : Network :=
  { get := fun _ => .failure "dial tcp 127.0.0.1:1188: connect: connection refused"
    post := fun _ => .failure "unused" }

/-- Invocation for the C7 witness. -/
def c7Inp : ActionInput :=
  { args := ["Hola"], source := "auto", target := "en",
    url := "http://localhost:1188", token := "", alternatives := false,
    timeout := 30, debug := false }

/-- Witness for C7 at a concrete refused connection. -/
theorem translate_unreachable_guidance_witness :
    c7Net.get c7Inp.url =
      .failure "dial tcp 127.0.0.1:1188: connect: connection refused" ∧
    strContains "dial tcp 127.0.0.1:1188: connect: connection refused"
      "connection refused" = true ∧
    (runAction c7Inp c7Net).2 = [NetEvent.getEv "http://localhost:1188"] ∧
    (runAction c7Inp c7Net).1.exitCode = 1 :=
  ⟨rfl, by decide,
   (translate_unreachable_guidance c7Inp c7Net
     "dial tcp 127.0.0.1:1188: connect: connection refused"
     rfl (Or.inl (by decide))).2.2.1,
   (translate_unreachable_guidance c7Inp c7Net
     "dial tcp 127.0.0.1:1188: connect: connection refused"
     rfl (Or.inl (by decide))).2.2.2⟩

end DeeplxCLI
